import Mathlib

/-!
Shallow embedding of the daemon RPC handler layer
(`src/xelis_daemon/src/rpc/rpc.rs`) of the xelis-blockchain repository.

The handlers are pure functions of an abstract `Blockchain` state; the
storage / p2p / mempool collaborators that the handlers call into are not
part of the source tree, so they appear as abstract function-valued fields
of the state, except where a claim needs their behaviour, in which case they
are modelled from the spec (marked `Modelled from the spec:`).
Fallible Rust calls (`Result<_, RpcError>` with `?`) become `Except RpcError`.
-/

abbrev Hash := Nat
abbrev TopoHeight := Nat
abbrev PublicKey := Nat
abbrev Asset := Nat
abbrev Transaction := Nat
abbrev BlockData := Nat

/-- The typed error categories of the RPC layer (`RpcError` in the source). -/
inductive RpcError where
  | InvalidParams
  | UnexpectedParams
  | InvalidRequest
  | NotFound
  | ExpectedNormalAddress
  | NoP2p
  deriving DecidableEq, Repr

/-- `BlockType` from `xelis_common::api::daemon`: the four block
classifications used by `get_block_type_for_block`. -/
inductive BlockType where
  | Sync
  | Side
  | Orphaned
  | Normal
  deriving DecidableEq, Repr

/-- A JSON request body, abstracted to what the handlers inspect:
whether it is `Value::Null`, plus an opaque payload otherwise. -/
inductive Value where
  | null
  | payload (n : Nat)
  deriving DecidableEq, Repr

/-- The versioned ledger store and block store behind
`blockchain.get_storage()`. Its implementation is outside the source file,
so every accessor is an abstract field; `balance_versions` carries the
per-(account, asset) version history the spec describes so that balance
lookups can be modelled from the spec. -/
structure Storage where
  /-- The persisted topoheight → hash index (`get_hash_at_topo_height`
  reads it; `none` where no block is ordered at that topoheight). -/
  topo_hash : TopoHeight → Option Hash
  get_block_by_hash : Hash → Except RpcError BlockData
  is_block_topological_ordered : Hash → Bool
  get_topo_height_for_hash : Hash → Except RpcError TopoHeight
  get_cumulative_difficulty_for_block : Hash → Except RpcError Nat
  get_difficulty_for_block : Hash → Except RpcError Nat
  get_supply_for_hash : Hash → Except RpcError Nat
  get_block_reward : Hash → Except RpcError Nat
  /-- Per (account, asset) append-only version history: pairs of
  (topoheight at which the version became effective, balance). -/
  balance_versions : PublicKey → Asset → List (TopoHeight × Nat)
  get_nonce : PublicKey → Except RpcError Nat
  get_assets : Except RpcError (List Asset)
  count_transactions : Nat
  get_tips : Except RpcError (List Hash)
  get_blocks_at_height : Nat → Except RpcError (List Hash)

/-- Modelled from the spec: `storage.get_hash_at_topo_height(T)` (not under
`src/`) resolves the persisted topoheight → hash index at `T`, failing when
no block is ordered there ("the topoheight→hash index" of the persistence
boundary, random access). -/
def Storage.get_hash_at_topo_height (s : Storage) (topo : TopoHeight) :
    Except RpcError Hash :=
  match s.topo_hash topo with
  | some h => Except.ok h
  | none => Except.error RpcError.NotFound

/-- Modelled from the spec: `storage.get_balance_at_exact_topoheight
(account, asset, T)` (not under `src/`) returns "the version recorded
exactly at T; fails `NotFound` if none exists at that height (no
interpolation across gaps)". -/
def Storage.get_balance_at_exact_topoheight (s : Storage)
    (key : PublicKey) (asset : Asset) (topo : TopoHeight) :
    Except RpcError Nat :=
  match (s.balance_versions key asset).find? (fun v => v.1 == topo) with
  | some v => Except.ok v.2
  | none => Except.error RpcError.NotFound

/-- Modelled from the spec: `storage.get_last_balance(account, asset)` (not
under `src/`) returns "the version with greatest topoheight ≤ current chain
topoheight; fails `NotFound` if the key never had a version". -/
def Storage.get_last_balance (s : Storage) (key : PublicKey) (asset : Asset)
    (current : TopoHeight) : Except RpcError (TopoHeight × Nat) :=
  match ((s.balance_versions key asset).filter (fun v => v.1 ≤ current)
      |>.argmax (fun v => v.1)) with
  | some v => Except.ok v
  | none => Except.error RpcError.NotFound

/-- The optional networking collaborator (`P2pServer`), reduced to the
read-only counters `p2p_status` reads from it. -/
structure P2pServer where
  peer_count : Nat
  tag : Option String
  peer_id : Nat
  best_height : Nat
  max_peers : Nat
  deriving DecidableEq, Repr

/-- `P2pStatusResult` from `xelis_common::api::daemon`. -/
structure P2pStatusResult where
  peer_count : Nat
  tag : Option String
  peer_id : Nat
  our_height : Nat
  best_height : Nat
  max_peers : Nat
  deriving DecidableEq, Repr

/-- The mempool behind `blockchain.get_mempool()`: the deterministic
fee-sorted transaction hash sequence and the `view_tx` accessor. -/
structure Mempool where
  sorted_txs : List Hash
  view_tx : Hash → Except RpcError Transaction

/-- An unmined block template as returned by
`get_block_template_for_storage`, reduced to what the handler reads:
its tip set and an opaque serializable header. -/
structure BlockTemplate where
  tips : List Hash
  header : Nat
  deriving DecidableEq, Repr

/-- Wallet address: the handlers only ask whether it is a normal address
and extract its public key. -/
structure Address where
  is_normal : Bool
  public_key : Nat
  deriving DecidableEq, Repr

/-- The blockchain core as seen from the RPC handlers: scalar chain
counters, the guarded storage snapshot, the optional p2p collaborator, the
mempool, and the block-query / template primitives the handlers delegate
to (all implemented outside this source file, hence abstract). -/
structure Blockchain where
  get_height : Nat
  get_topo_height : Nat
  get_stable_height : Nat
  storage : Storage
  p2p : Option P2pServer
  mempool : Mempool
  is_block_orphaned_for_storage : Hash → Bool
  is_block_sync : Hash → Except RpcError Bool
  is_side_block : Hash → Except RpcError Bool
  get_top_block_hash_for_storage : Except RpcError Hash
  get_block_template_for_storage : PublicKey → Except RpcError BlockTemplate
  get_difficulty_at_tips : List Hash → Except RpcError Nat

/-! ## Handler helpers (`rpc.rs` lines 37-63) -/

/-- `get_block_type_for_block` (rpc.rs:37-47): derives the block
classification on read, in the precedence Orphaned, Sync, Side, Normal. -/
def get_block_type_for_block (blockchain : Blockchain) (hash : Hash) :
    Except RpcError BlockType :=
  if blockchain.is_block_orphaned_for_storage hash then
    Except.ok BlockType.Orphaned
  else
    match blockchain.is_block_sync hash with
    | Except.error e => Except.error e
    | Except.ok true => Except.ok BlockType.Sync
    | Except.ok false =>
      match blockchain.is_side_block hash with
      | Except.error e => Except.error e
      | Except.ok true => Except.ok BlockType.Side
      | Except.ok false => Except.ok BlockType.Normal

/-- `BlockResponse` from `xelis_common::api::daemon` (the fields
`get_block_response_for_hash` populates). -/
structure BlockResponse where
  topoheight : Option TopoHeight
  block_type : BlockType
  cumulative_difficulty : Nat
  difficulty : Nat
  supply : Nat
  reward : Nat
  hash : Hash
  data : BlockData
  deriving DecidableEq, Repr

/-- `get_block_response_for_hash` (rpc.rs:49-63): assembles the full block
response; the topoheight field is `some` exactly when the block is
topologically ordered. -/
def get_block_response_for_hash (blockchain : Blockchain) (hash : Hash) :
    Except RpcError BlockResponse := do
  let block ← blockchain.storage.get_block_by_hash hash
  let topoheight ←
    if blockchain.storage.is_block_topological_ordered hash then
      (blockchain.storage.get_topo_height_for_hash hash).map some
    else
      Except.ok none
  let block_type ← get_block_type_for_block blockchain hash
  let cumulative_difficulty ←
    blockchain.storage.get_cumulative_difficulty_for_block hash
  let difficulty ← blockchain.storage.get_difficulty_for_block hash
  let supply ← blockchain.storage.get_supply_for_hash hash
  let reward ← blockchain.storage.get_block_reward hash
  Except.ok { topoheight, block_type, cumulative_difficulty, difficulty,
              supply, reward, hash, data := block }

/-! ## Parameter records (from `xelis_common::api::daemon`) -/

structure GetBlockAtTopoHeightParams where
  topoheight : TopoHeight
  deriving DecidableEq, Repr

structure GetBlockByHashParams where
  hash : Hash
  deriving DecidableEq, Repr

structure GetBlockTemplateParams where
  address : Address
  deriving DecidableEq, Repr

structure GetBlockTemplateResult where
  template : BlockTemplate
  difficulty : Nat
  deriving DecidableEq, Repr

structure GetBalanceAtTopoHeightParams where
  address : Address
  asset : Asset
  topoheight : TopoHeight
  deriving DecidableEq, Repr

structure GetBlocksAtHeightParams where
  height : Nat
  deriving DecidableEq, Repr

structure GetDagOrderParams where
  start_topoheight : Option TopoHeight
  end_topoheight : Option TopoHeight
  deriving DecidableEq, Repr

/-! ## Parameterless read endpoints (null-body guarded) -/

/-- `get_height` (rpc.rs:89-94). -/
def get_height (blockchain : Blockchain) (body : Value) :
    Except RpcError Nat :=
  if body ≠ Value.null then Except.error RpcError.UnexpectedParams
  else Except.ok blockchain.get_height

/-- `get_topoheight` (rpc.rs:96-101). -/
def get_topoheight (blockchain : Blockchain) (body : Value) :
    Except RpcError Nat :=
  if body ≠ Value.null then Except.error RpcError.UnexpectedParams
  else Except.ok blockchain.get_topo_height

/-- `get_stableheight` (rpc.rs:103-109). -/
def get_stableheight (blockchain : Blockchain) (body : Value) :
    Except RpcError Nat :=
  if body ≠ Value.null then Except.error RpcError.UnexpectedParams
  else Except.ok blockchain.get_stable_height

/-- `get_top_block` (rpc.rs:124-131). -/
def get_top_block (blockchain : Blockchain) (body : Value) :
    Except RpcError BlockResponse :=
  if body ≠ Value.null then Except.error RpcError.UnexpectedParams
  else do
    let hash ← blockchain.get_top_block_hash_for_storage
    get_block_response_for_hash blockchain hash

/-- `get_assets` (rpc.rs:183-191). -/
def get_assets (blockchain : Blockchain) (body : Value) :
    Except RpcError (List Asset) :=
  if body ≠ Value.null then Except.error RpcError.UnexpectedParams
  else blockchain.storage.get_assets

/-- `count_transactions` (rpc.rs:194-200). -/
def count_transactions (blockchain : Blockchain) (body : Value) :
    Except RpcError Nat :=
  if body ≠ Value.null then Except.error RpcError.UnexpectedParams
  else Except.ok blockchain.storage.count_transactions

/-- `p2p_status` (rpc.rs:216-242): fails `NoP2p` when the optional
networking collaborator is absent. -/
def p2p_status (blockchain : Blockchain) (body : Value) :
    Except RpcError P2pStatusResult :=
  if body ≠ Value.null then Except.error RpcError.UnexpectedParams
  else
    match blockchain.p2p with
    | some p2p =>
      Except.ok { peer_count := p2p.peer_count, tag := p2p.tag,
                  peer_id := p2p.peer_id,
                  our_height := blockchain.get_height,
                  best_height := p2p.best_height,
                  max_peers := p2p.max_peers }
    | none => Except.error RpcError.NoP2p

/-- The `for tx in mempool.get_sorted_txs()` loop of `get_mempool`
(rpc.rs:250-254): views each sorted transaction, propagating the first
failure, pushing `DataHash { hash, data }` pairs in order. -/
def view_sorted_txs (mempool : Mempool) :
    List Hash → Except RpcError (List (Hash × Transaction))
  | [] => Except.ok []
  | h :: hs => do
    let tx ← mempool.view_tx h
    let rest ← view_sorted_txs mempool hs
    Except.ok ((h, tx) :: rest)

/-- `get_mempool` (rpc.rs:244-257). -/
def get_mempool (blockchain : Blockchain) (body : Value) :
    Except RpcError (List (Hash × Transaction)) :=
  if body ≠ Value.null then Except.error RpcError.UnexpectedParams
  else view_sorted_txs blockchain.mempool blockchain.mempool.sorted_txs

/-- `get_tips` (rpc.rs:270-277). -/
def get_tips (blockchain : Blockchain) (body : Value) :
    Except RpcError (List Hash) :=
  if body ≠ Value.null then Except.error RpcError.UnexpectedParams
  else blockchain.storage.get_tips

/-! ## Parameterized endpoints

Parameter-shape validation (`parse_params` / serde) is outside the core per
the spec, so these handlers take the already type-validated parameter
record. -/

/-- `get_block_at_topoheight` (rpc.rs:111-116). -/
def get_block_at_topoheight (blockchain : Blockchain)
    (params : GetBlockAtTopoHeightParams) : Except RpcError BlockResponse := do
  let hash ← blockchain.storage.get_hash_at_topo_height params.topoheight
  get_block_response_for_hash blockchain hash

/-- `get_block_by_hash` (rpc.rs:118-122). -/
def get_block_by_hash (blockchain : Blockchain)
    (params : GetBlockByHashParams) : Except RpcError BlockResponse :=
  get_block_response_for_hash blockchain params.hash

/-- `get_block_template` (rpc.rs:133-142): rejects non-normal miner
addresses before any template construction. -/
def get_block_template (blockchain : Blockchain)
    (params : GetBlockTemplateParams) :
    Except RpcError GetBlockTemplateResult :=
  if !params.address.is_normal then Except.error RpcError.ExpectedNormalAddress
  else do
    let block ← blockchain.get_block_template_for_storage
      params.address.public_key
    let difficulty ← blockchain.get_difficulty_at_tips block.tips
    Except.ok { template := block, difficulty }

/-- `get_balance_at_topoheight` (rpc.rs:163-173): rejects topoheights
above the current chain topoheight before consulting storage. -/
def get_balance_at_topoheight (blockchain : Blockchain)
    (params : GetBalanceAtTopoHeightParams) : Except RpcError Nat :=
  let topoheight := blockchain.get_topo_height
  if params.topoheight > topoheight then Except.error RpcError.UnexpectedParams
  else
    blockchain.storage.get_balance_at_exact_topoheight
      params.address.public_key params.asset params.topoheight

/-- The loop body collecting hashes in `get_blocks_at_height`
(rpc.rs:263-266): one block response per hash, in order, propagating the
first failure. -/
def collect_block_responses (blockchain : Blockchain) :
    List Hash → Except RpcError (List BlockResponse)
  | [] => Except.ok []
  | h :: hs => do
    let r ← get_block_response_for_hash blockchain h
    let rest ← collect_block_responses blockchain hs
    Except.ok (r :: rest)

/-- `get_blocks_at_height` (rpc.rs:259-268). -/
def get_blocks_at_height (blockchain : Blockchain)
    (params : GetBlocksAtHeightParams) :
    Except RpcError (List BlockResponse) := do
  let hashes ← blockchain.storage.get_blocks_at_height params.height
  collect_block_responses blockchain hashes

/-! ## `get_dag_order` (rpc.rs:279-313) -/

/-- `MAX_DAG_ORDER` (rpc.rs:279). -/
def MAX_DAG_ORDER : Nat := 64

/-- The resolved start topoheight of a `get_dag_order` request
(rpc.rs:286-292): the explicit parameter, or `current - MAX_DAG_ORDER` when
neither bound is given and the chain is long enough, or 0. -/
def resolved_start_topoheight (current : TopoHeight)
    (params : GetDagOrderParams) : TopoHeight :=
  params.start_topoheight.getD
    (if params.end_topoheight.isNone ∧ MAX_DAG_ORDER < current then
      current - MAX_DAG_ORDER
    else 0)

/-- The resolved end topoheight of a `get_dag_order` request (rpc.rs:294):
the explicit parameter, defaulting to the current topoheight. -/
def resolved_end_topoheight (current : TopoHeight)
    (params : GetDagOrderParams) : TopoHeight :=
  params.end_topoheight.getD current

/-- The `for i in start_topoheight..=end_topoheight` loop of
`get_dag_order` (rpc.rs:308-311), reading `n` consecutive entries of the
topoheight → hash index starting at `start`, propagating the first
failure. -/
def collect_dag_order (s : Storage) :
    TopoHeight → Nat → Except RpcError (List Hash)
  | _, 0 => Except.ok []
  | start, n + 1 => do
    let hash ← s.get_hash_at_topo_height start
    let rest ← collect_dag_order s (start + 1) n
    Except.ok (hash :: rest)

/-- `get_dag_order` (rpc.rs:282-313). Note the loop is inclusive
(`start..=end`), so a successful call returns `count + 1` hashes where
`count = end - start` is what the `MAX_DAG_ORDER` check bounds. -/
def get_dag_order (blockchain : Blockchain) (params : GetDagOrderParams) :
    Except RpcError (List Hash) :=
  let current_topoheight := blockchain.get_topo_height
  let start_topoheight := resolved_start_topoheight current_topoheight params
  let end_topoheight := resolved_end_topoheight current_topoheight params
  if end_topoheight < start_topoheight ∨ current_topoheight < end_topoheight
  then
    Except.error RpcError.InvalidRequest
  else
    let count := end_topoheight - start_topoheight
    if MAX_DAG_ORDER < count then
      Except.error RpcError.InvalidRequest
    else
      collect_dag_order blockchain.storage start_topoheight (count + 1)

/-! ## Derived response consistency predicate -/

/-- What a successful block response asserts about the state it was read
from: the `topoheight` field is populated exactly when the block is
topologically ordered (and then carries the stored topoheight), and the
remaining fields are populated from the corresponding storage reads. -/
def block_response_consistent (bc : Blockchain) (h : Hash)
    (resp : BlockResponse) : Prop :=
  resp.topoheight.isSome = bc.storage.is_block_topological_ordered h ∧
  (∀ t, resp.topoheight = some t →
    bc.storage.get_topo_height_for_hash h = Except.ok t) ∧
  resp.hash = h ∧
  bc.storage.get_block_by_hash h = Except.ok resp.data ∧
  get_block_type_for_block bc h = Except.ok resp.block_type ∧
  bc.storage.get_cumulative_difficulty_for_block h =
    Except.ok resp.cumulative_difficulty ∧
  bc.storage.get_difficulty_for_block h = Except.ok resp.difficulty ∧
  bc.storage.get_supply_for_hash h = Except.ok resp.supply ∧
  bc.storage.get_block_reward h = Except.ok resp.reward

/-! ## Concrete example states (used to instantiate the theorems) -/

/-- A small healthy storage snapshot: current topoheight 10, blocks ordered
at topoheights 0-10 with hash `100 + i`, and one balance version recorded
at topoheight 3 for (account 1, asset 0). -/
def storage_ex : Storage where
  topo_hash := fun i => if i ≤ 10 then some (100 + i) else none
  get_block_by_hash := fun h => Except.ok (1000 + h)
  is_block_topological_ordered := fun h => decide (h ≤ 50)
  get_topo_height_for_hash := fun h => Except.ok h
  get_cumulative_difficulty_for_block := fun h => Except.ok (2000 + h)
  get_difficulty_for_block := fun _ => Except.ok 7
  get_supply_for_hash := fun _ => Except.ok 900
  get_block_reward := fun _ => Except.ok 50
  balance_versions := fun key asset =>
    if key = 1 ∧ asset = 0 then [(3, 50)] else []
  get_nonce := fun _ => Except.ok 0
  get_assets := Except.ok [0]
  count_transactions := 4
  get_tips := Except.ok [102, 110]
  get_blocks_at_height := fun _ => Except.ok [102]

/-- A healthy blockchain over `storage_ex` with a present p2p collaborator
and a two-transaction mempool. -/
def bc_ex : Blockchain where
  get_height := 11
  get_topo_height := 10
  get_stable_height := 8
  storage := storage_ex
  p2p := some { peer_count := 3, tag := none, peer_id := 77,
                best_height := 12, max_peers := 32 }
  mempool := { sorted_txs := [5, 6], view_tx := fun h => Except.ok (10 * h) }
  is_block_orphaned_for_storage := fun h => decide (h = 7)
  is_block_sync := fun h => Except.ok (decide (h ≤ 3))
  is_side_block := fun h => Except.ok (decide (h = 4))
  get_top_block_hash_for_storage := Except.ok 110
  get_block_template_for_storage := fun key =>
    Except.ok { tips := [110], header := key }
  get_difficulty_at_tips := fun _ => Except.ok 99

/-- `bc_ex` with the networking collaborator absent. -/
def bc_no_p2p : Blockchain := { bc_ex with p2p := none }

/-- A long chain (current topoheight 100) whose topoheight → hash index is
the identity: exercises the no-parameter `get_dag_order` fallback path. -/
def bc_long : Blockchain :=
  { bc_ex with
    get_topo_height := 100
    storage := { storage_ex with topo_hash := fun i => some i } }

/-- A chain at topoheight 0 with no recorded balance version at all. -/
def bc_empty : Blockchain :=
  { bc_ex with
    get_topo_height := 0
    storage := { storage_ex with balance_versions := fun _ _ => [] } }

/-- The block response `bc_ex` produces for hash 2 (ordered, sync). -/
def resp_ex : BlockResponse where
  topoheight := some 2
  block_type := BlockType.Sync
  cumulative_difficulty := 2002
  difficulty := 7
  supply := 900
  reward := 50
  hash := 2
  data := 1002

/-! ## Helper lemmas -/

deriving instance DecidableEq for Except

theorem except_ok_bind {ε α β : Type} (a : α) (k : α → Except ε β) :
    (Except.ok a >>= k : Except ε β) = k a := rfl

theorem except_error_bind {ε α β : Type} (e : ε) (k : α → Except ε β) :
    (Except.error e >>= k : Except ε β) = Except.error e := rfl

theorem except_isOk_exists {ε α : Type} {e : Except ε α} :
    e.isOk = true ↔ ∃ a, e = Except.ok a := by
  cases e <;> simp [Except.isOk, Except.toBool]

theorem collect_dag_order_eq (s : Storage) (f : TopoHeight → Hash) :
    ∀ (n start : Nat),
      (∀ i, i < n → s.topo_hash (start + i) = some (f (start + i))) →
      collect_dag_order s start n = Except.ok ((List.range' start n).map f)
  | 0, _, _ => by simp [collect_dag_order]
  | n + 1, start, hidx => by
    have h0 : s.topo_hash start = some (f start) := by
      simpa using hidx 0 (Nat.succ_pos n)
    have hrest := collect_dag_order_eq s f n (start + 1) (fun i hi => by
      have h2 := hidx (i + 1) (by omega)
      have e : start + (i + 1) = start + 1 + i := by omega
      rwa [e] at h2)
    simp [collect_dag_order, Storage.get_hash_at_topo_height, h0, hrest,
      except_ok_bind, List.range']

/-- C2: with neither range parameter given and the current topoheight at
most the 64-entry cap, `get_dag_order` succeeds and returns exactly one
hash per topoheight from 0 through the current topoheight inclusive, in
increasing topoheight order (the hash the topoheight → hash index records
at each position). -/
theorem get_dag_order_no_params_full_range (bc : Blockchain)
    (f : TopoHeight → Hash)
    (hcap : bc.get_topo_height ≤ MAX_DAG_ORDER)
    (hidx : ∀ i, i ≤ bc.get_topo_height →
      bc.storage.topo_hash i = some (f i)) :
    get_dag_order bc { start_topoheight := none, end_topoheight := none } =
      Except.ok ((List.range (bc.get_topo_height + 1)).map f) := by
  have hstart : resolved_start_topoheight bc.get_topo_height
      { start_topoheight := none, end_topoheight := none } = 0 := by
    unfold resolved_start_topoheight
    rw [Option.getD_none, if_neg]
    rintro ⟨-, hlt⟩
    omega
  have hend : resolved_end_topoheight bc.get_topo_height
      { start_topoheight := none, end_topoheight := none } =
      bc.get_topo_height := rfl
  simp only [get_dag_order, hstart, hend]
  rw [if_neg (show ¬(bc.get_topo_height < 0 ∨
    bc.get_topo_height < bc.get_topo_height) by omega)]
  rw [if_neg (show ¬(MAX_DAG_ORDER < bc.get_topo_height - 0) by omega)]
  rw [collect_dag_order_eq bc.storage f (bc.get_topo_height - 0 + 1) 0
    (fun i hi => by simpa using hidx i (by omega))]
  simp [List.range_eq_range']

/-- Witness for C2 at the concrete chain `bc_ex` (current topoheight 10):
the call returns the hashes `100 + i` for the topoheights 0 through 10. -/
theorem get_dag_order_no_params_full_range_witness :
    get_dag_order bc_ex { start_topoheight := none, end_topoheight := none } =
      Except.ok ((List.range (bc_ex.get_topo_height + 1)).map
        (fun i => 100 + i)) :=
  get_dag_order_no_params_full_range bc_ex (fun i => 100 + i)
    (by decide) (by decide)

/-- C3: whenever the resolved range of a `get_dag_order` request is
inverted (end below start) or its end exceeds the current chain
topoheight, the call fails `InvalidRequest` (so no hashes are returned). -/
theorem get_dag_order_invalid_range (bc : Blockchain)
    (params : GetDagOrderParams)
    (h : resolved_end_topoheight bc.get_topo_height params <
          resolved_start_topoheight bc.get_topo_height params ∨
        bc.get_topo_height < resolved_end_topoheight bc.get_topo_height params) :
    get_dag_order bc params = Except.error RpcError.InvalidRequest := by
  simp only [get_dag_order]
  rw [if_pos h]

/-- Witness for C3 at the concrete chain `bc_ex`: start=5, end=3 is
inverted and fails `InvalidRequest`. -/
theorem get_dag_order_invalid_range_witness :
    get_dag_order bc_ex { start_topoheight := some 5, end_topoheight := some 3 } =
      Except.error RpcError.InvalidRequest :=
  get_dag_order_invalid_range bc_ex
    { start_topoheight := some 5, end_topoheight := some 3 } (by decide)

/-- C1: the cap check of `get_dag_order` is off by one against its own
stated intent. At the concrete chain `bc_long` (current topoheight 100,
identity topoheight → hash index), the no-parameter request resolves to
the inclusive range 36..=100 and SUCCEEDS with 65 = `MAX_DAG_ORDER` + 1
hashes, because the check bounds `count = end - start` while the loop
reads `count + 1` entries — contradicting the claim (and the source's own
comment "only retrieve max 64 blocks hash per request"). -/
theorem get_dag_order_cap_off_by_one :
    get_dag_order bc_long { start_topoheight := none, end_topoheight := none } =
      Except.ok (List.range' 36 65) ∧
    (List.range' 36 65).length = MAX_DAG_ORDER + 1 := by
  constructor
  · decide
  · decide

/-- C4: the classification read for a block is decided in the precedence
Orphaned (excluded from the order), then Sync, then Side, then Normal; it
is recomputed from the current predicates on every call of
`get_block_type_for_block` (no stored classification exists in the state). -/
theorem get_block_type_for_block_precedence (bc : Blockchain) (h : Hash) :
    (bc.is_block_orphaned_for_storage h = true →
      get_block_type_for_block bc h = Except.ok BlockType.Orphaned) ∧
    (bc.is_block_orphaned_for_storage h = false →
      bc.is_block_sync h = Except.ok true →
      get_block_type_for_block bc h = Except.ok BlockType.Sync) ∧
    (bc.is_block_orphaned_for_storage h = false →
      bc.is_block_sync h = Except.ok false →
      bc.is_side_block h = Except.ok true →
      get_block_type_for_block bc h = Except.ok BlockType.Side) ∧
    (bc.is_block_orphaned_for_storage h = false →
      bc.is_block_sync h = Except.ok false →
      bc.is_side_block h = Except.ok false →
      get_block_type_for_block bc h = Except.ok BlockType.Normal) := by
  refine ⟨fun h1 => ?_, fun h1 h2 => ?_, fun h1 h2 h3 => ?_,
    fun h1 h2 h3 => ?_⟩ <;>
    simp [get_block_type_for_block, h1, *]

/-- Witness for C4 at `bc_ex`: block 7 is excluded from the order and so
classifies as Orphaned; block 2 is on the canonical path (sync) and block
4 is a side block. -/
theorem get_block_type_for_block_precedence_witness :
    get_block_type_for_block bc_ex 7 = Except.ok BlockType.Orphaned ∧
    get_block_type_for_block bc_ex 2 = Except.ok BlockType.Sync ∧
    get_block_type_for_block bc_ex 4 = Except.ok BlockType.Side :=
  ⟨(get_block_type_for_block_precedence bc_ex 7).1 (by decide),
   (get_block_type_for_block_precedence bc_ex 2).2.1 (by decide) (by decide),
   (get_block_type_for_block_precedence bc_ex 4).2.2.1 (by decide) (by decide)
     (by decide)⟩

/-- C5 as stated is false: for a topoheight above the current chain
topoheight (here T = 1 on a chain at topoheight 0, a key with no recorded
version anywhere), `get_balance_at_topoheight` fails `UnexpectedParams`,
not `NotFound`. -/
theorem get_balance_at_topoheight_c5_counterexample :
    (bc_empty.storage.balance_versions 1 0).find? (fun v => v.1 == 1) = none ∧
    get_balance_at_topoheight bc_empty
      { address := { is_normal := true, public_key := 1 }, asset := 0,
        topoheight := 1 } = Except.error RpcError.UnexpectedParams ∧
    get_balance_at_topoheight bc_empty
      { address := { is_normal := true, public_key := 1 }, asset := 0,
        topoheight := 1 } ≠ Except.error RpcError.NotFound := by
  refine ⟨rfl, rfl, by decide⟩

/-- C5 (amended): for every account, asset and topoheight T at most the
current chain topoheight at which no balance version was recorded for
that (account, asset) key, `get_balance_at_topoheight` fails `NotFound`
rather than returning a value interpolated from an earlier version. -/
theorem get_balance_at_topoheight_not_found (bc : Blockchain)
    (params : GetBalanceAtTopoHeightParams)
    (hle : params.topoheight ≤ bc.get_topo_height)
    (hnone : (bc.storage.balance_versions params.address.public_key
        params.asset).find? (fun v => v.1 == params.topoheight) = none) :
    get_balance_at_topoheight bc params = Except.error RpcError.NotFound := by
  unfold get_balance_at_topoheight
  rw [if_neg (Nat.not_lt.mpr hle)]
  unfold Storage.get_balance_at_exact_topoheight
  rw [hnone]

/-- Witness for the amended C5 at `bc_ex`: (account 1, asset 0) has its
only version at topoheight 3, so the exact query at topoheight 5 (below
the current topoheight 10) fails `NotFound`. -/
theorem get_balance_at_topoheight_not_found_witness :
    get_balance_at_topoheight bc_ex
      { address := { is_normal := true, public_key := 1 }, asset := 0,
        topoheight := 5 } = Except.error RpcError.NotFound :=
  get_balance_at_topoheight_not_found bc_ex
    { address := { is_normal := true, public_key := 1 }, asset := 0,
      topoheight := 5 } (by decide) (by decide)

/-- C10: a `get_balance_at_topoheight` request whose topoheight exceeds
the current chain topoheight fails `UnexpectedParams`, and the outcome is
the same whatever the ledger store contains — the store is never
consulted. -/
theorem get_balance_at_topoheight_over_current (bc : Blockchain)
    (params : GetBalanceAtTopoHeightParams)
    (hgt : bc.get_topo_height < params.topoheight) :
    get_balance_at_topoheight bc params =
      Except.error RpcError.UnexpectedParams ∧
    ∀ s : Storage, get_balance_at_topoheight { bc with storage := s } params =
      Except.error RpcError.UnexpectedParams := by
  constructor
  · unfold get_balance_at_topoheight
    rw [if_pos hgt]
  · intro s
    unfold get_balance_at_topoheight
    rw [if_pos hgt]

/-- Witness for C10 at `bc_ex` (current topoheight 10): the query at
topoheight 11 fails `UnexpectedParams`, including when the store is
swapped for the empty one. -/
theorem get_balance_at_topoheight_over_current_witness :
    get_balance_at_topoheight bc_ex
      { address := { is_normal := true, public_key := 1 }, asset := 0,
        topoheight := 11 } = Except.error RpcError.UnexpectedParams ∧
    get_balance_at_topoheight { bc_ex with storage := bc_empty.storage }
      { address := { is_normal := true, public_key := 1 }, asset := 0,
        topoheight := 11 } = Except.error RpcError.UnexpectedParams := by
  obtain ⟨h1, h2⟩ := get_balance_at_topoheight_over_current bc_ex
    { address := { is_normal := true, public_key := 1 }, asset := 0,
      topoheight := 11 } (by decide)
  exact ⟨h1, h2 bc_empty.storage⟩

/-- C7: `p2p_status` fails with the typed error `NoP2p` exactly when the
optional networking collaborator is absent; when it is present the call
succeeds and reports peer count, node tag, local peer identifier, own
height, best known height and the max-peer configuration. -/
theorem p2p_status_spec (bc : Blockchain) :
    (bc.p2p = none →
      p2p_status bc Value.null = Except.error RpcError.NoP2p) ∧
    (∀ p, bc.p2p = some p →
      p2p_status bc Value.null = Except.ok
        { peer_count := p.peer_count, tag := p.tag, peer_id := p.peer_id,
          our_height := bc.get_height, best_height := p.best_height,
          max_peers := p.max_peers }) := by
  constructor
  · intro hn
    simp [p2p_status, hn]
  · intro p hp
    simp [p2p_status, hp]

/-- Witness for C7: `bc_no_p2p` (collaborator absent) fails `NoP2p`;
`bc_ex` (collaborator present) reports its counters. -/
theorem p2p_status_spec_witness :
    p2p_status bc_no_p2p Value.null = Except.error RpcError.NoP2p ∧
    p2p_status bc_ex Value.null = Except.ok
      { peer_count := 3, tag := none, peer_id := 77, our_height := 11,
        best_height := 12, max_peers := 32 } :=
  ⟨(p2p_status_spec bc_no_p2p).1 rfl, (p2p_status_spec bc_ex).2 _ rfl⟩

/-- C8: a `get_block_template` request whose miner address is not a
normal address fails `ExpectedNormalAddress`; the outcome is the same for
every blockchain state, so no tip selection, difficulty computation or
mempool packing is performed. -/
theorem get_block_template_non_normal (bc : Blockchain)
    (params : GetBlockTemplateParams)
    (h : params.address.is_normal = false) :
    get_block_template bc params =
      Except.error RpcError.ExpectedNormalAddress := by
  simp [get_block_template, h]

/-- Witness for C8 at `bc_ex` with a non-normal address. -/
theorem get_block_template_non_normal_witness :
    get_block_template bc_ex
      { address := { is_normal := false, public_key := 9 } } =
      Except.error RpcError.ExpectedNormalAddress :=
  get_block_template_non_normal bc_ex
    { address := { is_normal := false, public_key := 9 } } rfl

theorem except_map_ok {ε α β : Type} (f : α → β) (a : α) :
    (Except.ok a : Except ε α).map f = Except.ok (f a) := rfl

theorem except_map_error {ε α β : Type} (f : α → β) (e : ε) :
    (Except.error e : Except ε α).map f = Except.error e := rfl

theorem get_block_response_for_hash_ok (bc : Blockchain) (h : Hash)
    (resp : BlockResponse)
    (hr : get_block_response_for_hash bc h = Except.ok resp) :
    block_response_consistent bc h resp := by
  unfold get_block_response_for_hash at hr
  cases e1 : bc.storage.get_block_by_hash h with
  | error e => rw [e1] at hr; simp [except_error_bind] at hr
  | ok block =>
  rw [e1] at hr
  simp only [except_ok_bind] at hr
  cases ho : bc.storage.is_block_topological_ordered h with
  | true =>
    rw [ho, if_pos rfl] at hr
    cases et : bc.storage.get_topo_height_for_hash h with
    | error e =>
      rw [et] at hr; simp [except_map_error, except_error_bind] at hr
    | ok t =>
    rw [et] at hr
    simp only [except_map_ok, except_ok_bind] at hr
    cases e2 : get_block_type_for_block bc h with
    | error e => rw [e2] at hr; simp [except_error_bind] at hr
    | ok bt =>
    rw [e2] at hr
    simp only [except_ok_bind] at hr
    cases e3 : bc.storage.get_cumulative_difficulty_for_block h with
    | error e => rw [e3] at hr; simp [except_error_bind] at hr
    | ok cd =>
    rw [e3] at hr
    simp only [except_ok_bind] at hr
    cases e4 : bc.storage.get_difficulty_for_block h with
    | error e => rw [e4] at hr; simp [except_error_bind] at hr
    | ok d =>
    rw [e4] at hr
    simp only [except_ok_bind] at hr
    cases e5 : bc.storage.get_supply_for_hash h with
    | error e => rw [e5] at hr; simp [except_error_bind] at hr
    | ok sup =>
    rw [e5] at hr
    simp only [except_ok_bind] at hr
    cases e6 : bc.storage.get_block_reward h with
    | error e => rw [e6] at hr; simp [except_error_bind] at hr
    | ok rew =>
    rw [e6] at hr
    simp only [except_ok_bind] at hr
    injection hr with hx
    subst hx
    refine ⟨by simp [ho], ?_, rfl, e1, e2, e3, e4, e5, e6⟩
    intro t' ht'
    injection ht' with ht'
    subst ht'
    exact et
  | false =>
    rw [ho] at hr
    simp only [Bool.false_eq_true, if_false, except_ok_bind] at hr
    cases e2 : get_block_type_for_block bc h with
    | error e => rw [e2] at hr; simp [except_error_bind] at hr
    | ok bt =>
    rw [e2] at hr
    simp only [except_ok_bind] at hr
    cases e3 : bc.storage.get_cumulative_difficulty_for_block h with
    | error e => rw [e3] at hr; simp [except_error_bind] at hr
    | ok cd =>
    rw [e3] at hr
    simp only [except_ok_bind] at hr
    cases e4 : bc.storage.get_difficulty_for_block h with
    | error e => rw [e4] at hr; simp [except_error_bind] at hr
    | ok d =>
    rw [e4] at hr
    simp only [except_ok_bind] at hr
    cases e5 : bc.storage.get_supply_for_hash h with
    | error e => rw [e5] at hr; simp [except_error_bind] at hr
    | ok sup =>
    rw [e5] at hr
    simp only [except_ok_bind] at hr
    cases e6 : bc.storage.get_block_reward h with
    | error e => rw [e6] at hr; simp [except_error_bind] at hr
    | ok rew =>
    rw [e6] at hr
    simp only [except_ok_bind] at hr
    injection hr with hx
    subst hx
    exact ⟨by simp [ho], by intro t' ht'; simp at ht', rfl, e1, e2, e3, e4,
      e5, e6⟩

theorem collect_block_responses_mem (bc : Blockchain) :
    ∀ (hs : List Hash) (resps : List BlockResponse),
      collect_block_responses bc hs = Except.ok resps →
      ∀ resp ∈ resps, ∃ h, get_block_response_for_hash bc h = Except.ok resp
  | [], resps, hok => by
    unfold collect_block_responses at hok
    injection hok with hx
    subst hx
    intro resp hmem
    simp at hmem
  | h :: hs, resps, hok => by
    unfold collect_block_responses at hok
    cases e1 : get_block_response_for_hash bc h with
    | error e => rw [e1] at hok; simp [except_error_bind] at hok
    | ok r =>
    rw [e1] at hok
    simp only [except_ok_bind] at hok
    cases e2 : collect_block_responses bc hs with
    | error e => rw [e2] at hok; simp [except_error_bind] at hok
    | ok rest =>
    rw [e2] at hok
    simp only [except_ok_bind] at hok
    injection hok with hx
    subst hx
    intro resp hmem
    rcases List.mem_cons.mp hmem with rfl | hm
    · exact ⟨h, e1⟩
    · exact collect_block_responses_mem bc hs rest e2 resp hm

/-- C9: every successful block response — from the shared helper and from
each of the four block endpoints — has its `topoheight` field populated
exactly when the block is topologically ordered (then carrying the stored
topoheight), while the block data, classification, difficulty, cumulative
difficulty, supply and reward fields are always populated from the
corresponding storage reads. -/
theorem block_responses_consistent (bc : Blockchain) :
    (∀ h resp, get_block_response_for_hash bc h = Except.ok resp →
      block_response_consistent bc h resp) ∧
    (∀ params resp, get_block_by_hash bc params = Except.ok resp →
      block_response_consistent bc params.hash resp) ∧
    (∀ params resp, get_block_at_topoheight bc params = Except.ok resp →
      ∃ h, bc.storage.get_hash_at_topo_height params.topoheight =
          Except.ok h ∧
        block_response_consistent bc h resp) ∧
    (∀ resp, get_top_block bc Value.null = Except.ok resp →
      ∃ h, bc.get_top_block_hash_for_storage = Except.ok h ∧
        block_response_consistent bc h resp) ∧
    (∀ params resps, get_blocks_at_height bc params = Except.ok resps →
      ∀ resp ∈ resps, ∃ h, block_response_consistent bc h resp) := by
  refine ⟨fun h resp hr => get_block_response_for_hash_ok bc h resp hr,
    fun p resp hr => ?_, fun p resp hr => ?_, fun resp hr => ?_,
    fun p resps hr => ?_⟩
  · unfold get_block_by_hash at hr
    exact get_block_response_for_hash_ok bc p.hash resp hr
  · unfold get_block_at_topoheight at hr
    cases eh : bc.storage.get_hash_at_topo_height p.topoheight with
    | error e => rw [eh] at hr; simp [except_error_bind] at hr
    | ok hsh =>
      rw [eh] at hr
      simp only [except_ok_bind] at hr
      exact ⟨hsh, rfl, get_block_response_for_hash_ok bc hsh resp hr⟩
  · unfold get_top_block at hr
    rw [if_neg (fun hne => hne rfl)] at hr
    cases eh : bc.get_top_block_hash_for_storage with
    | error e => rw [eh] at hr; simp [except_error_bind] at hr
    | ok hsh =>
      rw [eh] at hr
      simp only [except_ok_bind] at hr
      exact ⟨hsh, rfl, get_block_response_for_hash_ok bc hsh resp hr⟩
  · unfold get_blocks_at_height at hr
    cases eh : bc.storage.get_blocks_at_height p.height with
    | error e => rw [eh] at hr; simp [except_error_bind] at hr
    | ok hashes =>
      rw [eh] at hr
      simp only [except_ok_bind] at hr
      intro resp hmem
      obtain ⟨h, hh⟩ :=
        collect_block_responses_mem bc hashes resps hr resp hmem
      exact ⟨h, get_block_response_for_hash_ok bc h resp hh⟩

/-- Witness for C9: the response `bc_ex` serves for the ordered block 2
carries `topoheight = some 2` and all fields populated from storage. -/
theorem block_responses_consistent_witness :
    block_response_consistent bc_ex 2 resp_ex :=
  (block_responses_consistent bc_ex).1 2 resp_ex (by decide)

theorem view_sorted_txs_isOk (mp : Mempool) :
    ∀ l : List Hash, (∀ h ∈ l, (mp.view_tx h).isOk) →
      (view_sorted_txs mp l).isOk
  | [], _ => by simp [view_sorted_txs, Except.isOk, Except.toBool]
  | h :: hs, hall => by
    obtain ⟨tx, etx⟩ :=
      except_isOk_exists.mp (hall h (List.mem_cons_self h hs))
    obtain ⟨rest, erest⟩ := except_isOk_exists.mp (view_sorted_txs_isOk mp hs
      (fun x hx => hall x (List.mem_cons_of_mem h hx)))
    unfold view_sorted_txs
    rw [etx]
    simp only [except_ok_bind]
    rw [erest]
    simp [except_ok_bind, Except.isOk, Except.toBool]

/-- C6: every parameterless read endpoint rejects a non-null request body
with `UnexpectedParams` — uniformly in the chain state, which is therefore
never read — and with a null body proceeds on its normal path: the scalar
counters always succeed, the storage-backed and collaborator-backed
endpoints succeed whenever their underlying reads do. -/
theorem null_body_guarded_endpoints (bc : Blockchain) (body : Value) :
    (body ≠ Value.null →
      get_height bc body = Except.error RpcError.UnexpectedParams ∧
      get_topoheight bc body = Except.error RpcError.UnexpectedParams ∧
      get_stableheight bc body = Except.error RpcError.UnexpectedParams ∧
      get_top_block bc body = Except.error RpcError.UnexpectedParams ∧
      get_assets bc body = Except.error RpcError.UnexpectedParams ∧
      count_transactions bc body = Except.error RpcError.UnexpectedParams ∧
      p2p_status bc body = Except.error RpcError.UnexpectedParams ∧
      get_mempool bc body = Except.error RpcError.UnexpectedParams ∧
      get_tips bc body = Except.error RpcError.UnexpectedParams) ∧
    get_height bc Value.null = Except.ok bc.get_height ∧
    get_topoheight bc Value.null = Except.ok bc.get_topo_height ∧
    get_stableheight bc Value.null = Except.ok bc.get_stable_height ∧
    count_transactions bc Value.null =
      Except.ok bc.storage.count_transactions ∧
    get_assets bc Value.null = bc.storage.get_assets ∧
    get_tips bc Value.null = bc.storage.get_tips ∧
    (bc.p2p.isSome → (p2p_status bc Value.null).isOk) ∧
    ((∀ h ∈ bc.mempool.sorted_txs, (bc.mempool.view_tx h).isOk) →
      (get_mempool bc Value.null).isOk) ∧
    (∀ h, bc.get_top_block_hash_for_storage = Except.ok h →
      (get_block_response_for_hash bc h).isOk →
      (get_top_block bc Value.null).isOk) := by
  have hnull : ¬(Value.null ≠ Value.null) := fun hne => hne rfl
  refine ⟨fun hb => ?_, ?_, ?_, ?_, ?_, ?_, ?_, fun hp => ?_, fun hall => ?_,
    fun h htop hres => ?_⟩
  · refine ⟨?_, ?_, ?_, ?_, ?_, ?_, ?_, ?_, ?_⟩ <;>
      simp only [get_height, get_topoheight, get_stableheight, get_top_block,
        get_assets, count_transactions, p2p_status, get_mempool, get_tips,
        if_pos hb]
  · unfold get_height; rw [if_neg hnull]
  · unfold get_topoheight; rw [if_neg hnull]
  · unfold get_stableheight; rw [if_neg hnull]
  · unfold count_transactions; rw [if_neg hnull]
  · unfold get_assets; rw [if_neg hnull]
  · unfold get_tips; rw [if_neg hnull]
  · obtain ⟨p, hp2⟩ := Option.isSome_iff_exists.mp hp
    unfold p2p_status
    rw [if_neg hnull, hp2]
    simp [Except.isOk, Except.toBool]
  · unfold get_mempool
    rw [if_neg hnull]
    exact view_sorted_txs_isOk bc.mempool bc.mempool.sorted_txs hall
  · unfold get_top_block
    rw [if_neg hnull, htop]
    simpa only [except_ok_bind] using hres

/-- Witness for C6 at `bc_ex`: a non-null body is rejected by `get_height`
and `get_tips`; with a null body `p2p_status`, `get_mempool` and
`get_top_block` all succeed. -/
theorem null_body_guarded_endpoints_witness :
    get_height bc_ex (Value.payload 0) =
      Except.error RpcError.UnexpectedParams ∧
    get_tips bc_ex (Value.payload 0) =
      Except.error RpcError.UnexpectedParams ∧
    (p2p_status bc_ex Value.null).isOk ∧
    (get_mempool bc_ex Value.null).isOk ∧
    (get_top_block bc_ex Value.null).isOk := by
  obtain ⟨-, -, -, -, -, -, -, hp2p, hmem, htop⟩ :=
    null_body_guarded_endpoints bc_ex Value.null
  obtain ⟨hgp, hrest⟩ :=
    (null_body_guarded_endpoints bc_ex (Value.payload 0)).1 (by decide)
  exact ⟨hgp, hrest.2.2.2.2.2.2.2, hp2p (by decide), hmem (by decide),
    htop 110 rfl (by decide)⟩
